import Mathlib

/-!
Shallow embedding of the link-shortener service core: the identifier
generator, the credential gate (`src/auth.rs`), and the request handlers
(`src/route.rs`).  External collaborators are parameters of the model:
the URL parser (the `url` crate, represented as a normalizing function
of type `String → Option String`, the composite of `Url::parse` and
`to_string`), the SHA3-256 lowercase-hex digest (the `sha3` crate,
represented as a function `String → String`), the random draw (the drawn
integer is an explicit argument), and the database (tables are explicit
state; timeout and store faults are injected per call).  Handlers return,
besides their result, the updated database state and the list of store
operations they issued, so that claims about side effects are statable.
-/

namespace LinkShortener

/-- Fixed Cache-Control header value attached to every redirect response
(`DEFAULT_CACHE_CONTROL_HEADER_VALUE` in `src/route.rs`). -/
def DEFAULT_CACHE_CONTROL_HEADER_VALUE : String :=
  "public, max-age=300, s-maxage=300, stale-while-revalidate=300, stale-if-error=300"

/-- A persisted link row (`struct Link` in `src/route.rs`). -/
structure Link where
  id : String
  target_url : String
deriving DecidableEq, Repr

/-- The request body of create and update (`struct LinkTarget`). -/
structure LinkTarget where
  target_url : String
deriving DecidableEq, Repr

/-- One row of the `link_statistics` table (a ClickEvent). -/
structure ClickEvent where
  link_id : String
  referer : Option String
  user_agent : Option String
deriving DecidableEq, Repr

/-- The single global settings row (`struct Settings` in `src/auth.rs`). -/
structure Settings where
  id : String
  encrypted_global_api_key : String
deriving DecidableEq, Repr

/-- The database state: the `links` table and the `link_statistics` table. -/
structure Db where
  links : List Link
  link_statistics : List ClickEvent
deriving DecidableEq, Repr

/-- Fault injection for one timeout-guarded store call: the call either
completes (`ok`), exceeds the 300ms `tokio::time::timeout` (`timeout`),
or fails inside the store (`storeError`). -/
inductive Fault where
  | ok
  | timeout
  | storeError (msg : String)
deriving DecidableEq, Repr

/-- A store operation issued by a handler, recorded for side-effect claims. -/
inductive StoreOp where
  | selectLink (id : String)
  | insertLink (id : String) (target_url : String)
  | updateLinkRow (id : String) (target_url : String)
  | insertStat (link_id : String) (referer : Option String) (user_agent : Option String)
deriving DecidableEq, Repr

/-- An HTTP response as the handlers build it (status plus named headers). -/
structure HttpResponse where
  status : Nat
  headers : List (String × String)
  body : String
deriving DecidableEq, Repr

/-- An inbound request as the credential gate sees it: target URI and
headers; a header value is a byte sequence (`http::HeaderValue`). -/
structure Request where
  uri : String
  headers : List (String × List Nat)
deriving DecidableEq, Repr

/-- Header lookup (`HeaderMap::get`): first entry with the given name. -/
def headerGet (headers : List (String × List Nat)) (name : String) :
    Option (List Nat) :=
  (headers.find? (fun p => p.1 == name)).map (fun p => p.2)

/-- Conversion of a header value to a string (`HeaderValue::to_str`):
succeeds only when every byte is visible ASCII (32..126) or horizontal
tab, and then yields those bytes as characters; otherwise fails. -/
def headerToStr (bytes : List Nat) : Option String :=
  if bytes.all (fun b => (decide (32 ≤ b) && decide (b < 127)) || b == 9)
  then some (String.mk (bytes.map Char.ofNat))
  else none

/-- Modelled from the spec: `internal_error` lives in `src/utils.rs`, which
is not part of the provided sources; per the spec, timeout and store
errors "are never swallowed on the write path — they surface as
*Internal Error* to the caller", so it maps any error message to an HTTP
500 response pair. -/
def internal_error (msg : String) : Nat × String := (500, msg)

/-- Display text of `tokio::time::error::Elapsed`, the timeout error. -/
def elapsedMsg : String := "deadline has elapsed"

/-- Display text of `sqlx::Error::RowNotFound`, produced by `fetch_one`
when the query returns no row. -/
def rowNotFoundMsg : String :=
  "no rows returned by a query that expected to return at least one row"

/-- Message of the store-level unique-constraint violation raised when an
inserted link id already exists. -/
def uniqueViolationMsg : String :=
  "duplicate key value violates unique constraint"

/-- Lookup of a link row by id (`SELECT id, target_url FROM links WHERE
id = $1`, via `fetch_optional`). -/
def findLink (links : List Link) (id : String) : Option Link :=
  links.find? (fun l => l.id == id)

/-- Half-open sampling range of the identifier generator:
`rand::thread_rng().gen_range(0..u32::MAX)` draws uniformly from
`0` inclusive to `u32::MAX = 4294967295` exclusive. -/
def genRange (n : Nat) : Prop := 0 ≤ n ∧ n < 4294967295

instance (n : Nat) : Decidable (genRange n) := by
  unfold genRange; infer_instance

/-- URL-safe base64 alphabet (the `URL_SAFE` character set of the
`base64` crate): `A`..`Z`, `a`..`z`, `0`..`9`, `-`, `_`. -/
def b64UrlAlphabet : List Char :=
  "ABCDEFGHIJKLMNOPQRSTUVWXYZabcdefghijklmnopqrstuvwxyz0123456789-_".data

/-- Character of the URL-safe base64 alphabet at a 6-bit index. -/
def b64Char (i : Nat) : Char := b64UrlAlphabet.getD i 'A'

/-- URL-safe base64 encoding without padding
(`general_purpose::URL_SAFE_NO_PAD.encode`) of a byte sequence. -/
def base64UrlNoPadEncode : List Nat → List Char
  | [] => []
  | [b1] => [b64Char (b1 / 4), b64Char (b1 % 4 * 16)]
  | [b1, b2] =>
    [b64Char (b1 / 4), b64Char (b1 % 4 * 16 + b2 / 16), b64Char (b2 % 16 * 4)]
  | b1 :: b2 :: b3 :: rest =>
    b64Char (b1 / 4) :: b64Char (b1 % 4 * 16 + b2 / 16) ::
    b64Char (b2 % 16 * 4 + b3 / 64) :: b64Char (b3 % 64) ::
    base64UrlNoPadEncode rest

/-- Identifier generator (`generate_id` in `src/route.rs`): the drawn
random integer is an explicit argument; its base-10 decimal text is
encoded with URL-safe base64 without padding. -/
def generate_id (random_number : Nat) : String :=
  String.mk (base64UrlNoPadEncode ((Nat.repr random_number).data.map Char.toNat))

/-- Redirect handler (`redirect` in `src/route.rs`).  Looks up the link
under the select fault, extracts optional `referer` and `user-agent`
headers, attempts the statistics insert under the insert fault (failure
only logged), and on success responds 307 with `Location` and the fixed
`Cache-Control` header.  Returns the result, the updated database and
the issued store operations. -/
def redirect (db : Db) (selectFault insertFault : Fault)
    (requested_link : String) (headers : List (String × List Nat)) :
    Except (Nat × String) HttpResponse × Db × List StoreOp :=
  match selectFault with
  | .timeout =>
    (.error (internal_error elapsedMsg), db, [.selectLink requested_link])
  | .storeError e =>
    (.error (internal_error e), db, [.selectLink requested_link])
  | .ok =>
    match findLink db.links requested_link with
    | none => (.error (404, "Not Found"), db, [.selectLink requested_link])
    | some link =>
      let referer_header :=
        (headerGet headers "referer").map (fun v => (headerToStr v).getD "")
      let user_agent_header :=
        (headerGet headers "user-agent").map (fun v => (headerToStr v).getD "")
      let ops := [StoreOp.selectLink requested_link,
                  StoreOp.insertStat requested_link referer_header user_agent_header]
      let db' :=
        match insertFault with
        | .ok =>
          { db with link_statistics :=
              db.link_statistics ++
                [⟨requested_link, referer_header, user_agent_header⟩] }
        | _ => db
      (.ok { status := 307,
             headers := [("Location", link.target_url),
                         ("Cache-Control", DEFAULT_CACHE_CONTROL_HEADER_VALUE)],
             body := "" },
       db', ops)

/-- Create handler (`create_link` in `src/route.rs`).  Parses and
normalizes the submitted URL (`Url::parse` then `to_string`, the `parse`
parameter); malformed input fails with 409 "Url Malformed" before any
store call.  Otherwise inserts `(generated id, normalized url)`; the
`INSERT .. RETURNING` raises a unique violation when the id exists. -/
def create_link (parse : String → Option String) (random_number : Nat)
    (db : Db) (insertFault : Fault) (new_link : LinkTarget) :
    Except (Nat × String) Link × Db × List StoreOp :=
  match parse new_link.target_url with
  | none => (.error (409, "Url Malformed"), db, [])
  | some url =>
    let new_link_id := generate_id random_number
    match insertFault with
    | .timeout =>
      (.error (internal_error elapsedMsg), db, [.insertLink new_link_id url])
    | .storeError e =>
      (.error (internal_error e), db, [.insertLink new_link_id url])
    | .ok =>
      match findLink db.links new_link_id with
      | some _ =>
        (.error (internal_error uniqueViolationMsg), db,
         [.insertLink new_link_id url])
      | none =>
        (.ok ⟨new_link_id, url⟩,
         { db with links := db.links ++ [⟨new_link_id, url⟩] },
         [.insertLink new_link_id url])

/-- Update handler (`update_link` in `src/route.rs`).  Same URL
validation as create; then issues `UPDATE .. RETURNING` through
`fetch_one`: when no row matches the id, `fetch_one` yields
`RowNotFound`, which `internal_error` surfaces as a 500. -/
def update_link (parse : String → Option String) (db : Db)
    (updateFault : Fault) (id : String) (body : LinkTarget) :
    Except (Nat × String) Link × Db × List StoreOp :=
  match parse body.target_url with
  | none => (.error (409, "Url Malformed"), db, [])
  | some url =>
    match updateFault with
    | .timeout =>
      (.error (internal_error elapsedMsg), db, [.updateLinkRow id url])
    | .storeError e =>
      (.error (internal_error e), db, [.updateLinkRow id url])
    | .ok =>
      match findLink db.links id with
      | none =>
        (.error (internal_error rowNotFoundMsg), db, [.updateLinkRow id url])
      | some _ =>
        (.ok ⟨id, url⟩,
         { db with links :=
             db.links.map (fun l => if l.id == id then ⟨l.id, url⟩ else l) },
         [.updateLinkRow id url])

/-- Observable effects of the credential gate besides its result: metric
counter increments (with their label) and the settings fetch. -/
inductive AuthEffect where
  | counterIncr (label : String × String)
  | fetchSetting
deriving DecidableEq, Repr

/-- Credential gate (`auth` in `src/auth.rs`).  `sha3Hex` is the
lowercase-hex SHA3-256 digest of a string (the `sha3` crate composed
with the `:x` formatter); `next` is the inner handler.  A missing
`x-api` header fails Unauthorized before the settings fetch; a value
that `to_str` cannot convert is replaced by the empty string
(`unwrap_or_default`); the digest of the extracted secret is compared
against the stored `encrypted_global_api_key`. -/
def auth (sha3Hex : String → String) (next : Request → HttpResponse)
    (settingFetch : Fault) (setting : Settings) (req : Request) :
    Except (Nat × String) HttpResponse × List AuthEffect :=
  let labels : String × String := ("uri", req.uri ++ "!")
  match headerGet req.headers "x-api" with
  | none => (.error (401, "Unauthorized"), [.counterIncr labels])
  | some v =>
    let api_key := (headerToStr v).getD ""
    match settingFetch with
    | .timeout => (.error (internal_error elapsedMsg), [.fetchSetting])
    | .storeError e => (.error (internal_error e), [.fetchSetting])
    | .ok =>
      if setting.encrypted_global_api_key ≠ sha3Hex api_key then
        (.error (401, "Unauthorized"), [.fetchSetting, .counterIncr labels])
      else
        (.ok (next req), [.fetchSetting])

/-- Recognizer of statistics-insert store operations. -/
def isInsertStat : StoreOp → Bool
  | .insertStat _ _ _ => true
  | _ => false

/-- Recognizer of counter-increment effects. -/
def isCounterIncr : AuthEffect → Bool
  | .counterIncr _ => true
  | _ => false

/-! Helper lemmas. -/

theorem b64Char_mem (i : Nat) : b64Char i ∈ b64UrlAlphabet := by
  unfold b64Char List.getD
  rcases h : b64UrlAlphabet[i]? with _ | c
  · simp [h]
    decide
  · simp [h]
    exact List.getElem?_mem h

theorem base64UrlNoPadEncode_mem (bs : List Nat) :
    ∀ c ∈ base64UrlNoPadEncode bs, c ∈ b64UrlAlphabet := by
  induction bs using base64UrlNoPadEncode.induct with
  | case1 => intro c hc; simp [base64UrlNoPadEncode] at hc
  | case2 b1 =>
    intro c hc
    simp [base64UrlNoPadEncode] at hc
    rcases hc with h | h <;> subst h <;> exact b64Char_mem _
  | case3 b1 b2 =>
    intro c hc
    simp [base64UrlNoPadEncode] at hc
    rcases hc with h | h | h <;> subst h <;> exact b64Char_mem _
  | case4 b1 b2 b3 rest ih =>
    intro c hc
    simp [base64UrlNoPadEncode] at hc
    rcases hc with h | h | h | h | h
    · subst h; exact b64Char_mem _
    · subst h; exact b64Char_mem _
    · subst h; exact b64Char_mem _
    · subst h; exact b64Char_mem _
    · exact ih c h

theorem findLink_append_fresh (links : List Link) (l : Link)
    (h : findLink links l.id = none) :
    findLink (links ++ [l]) l.id = some l := by
  unfold findLink at h ⊢
  induction links with
  | nil => simp
  | cons x xs ih =>
    rcases hx : (x.id == l.id) with _ | _
    · simp only [List.cons_append, List.find?_cons, hx] at h ⊢
      exact ih h
    · simp only [List.find?_cons, hx] at h
      exact absurd h (by simp)

/-! Claim theorems. -/

/-- C1: for every valid absolute URL string `u` (one the parser normalizes
to `v`), creating a link from `u` and then redirecting the returned id
yields a 307 Temporary Redirect whose `Location` header equals the
normalized form `v` of `u`: create followed by redirect round-trips the
stored target URL.  The generated id is assumed fresh (otherwise the
insert raises a unique violation and create returns no id). -/
theorem create_then_redirect_roundtrip
    (parse : String → Option String) (u v : String) (n : Nat) (db : Db)
    (insertFault : Fault) (headers : List (String × List Nat))
    (hu : parse u = some v)
    (hfresh : findLink db.links (generate_id n) = none) :
    (create_link parse n db .ok ⟨u⟩).1 = .ok ⟨generate_id n, v⟩ ∧
    (redirect (create_link parse n db .ok ⟨u⟩).2.1 .ok insertFault
        (generate_id n) headers).1 =
      .ok { status := 307,
            headers := [("Location", v),
                        ("Cache-Control", DEFAULT_CACHE_CONTROL_HEADER_VALUE)],
            body := "" } := by
  have h1 : create_link parse n db .ok ⟨u⟩ =
      (.ok ⟨generate_id n, v⟩,
       { db with links := db.links ++ [⟨generate_id n, v⟩] },
       [.insertLink (generate_id n) v]) := by
    simp [create_link, hu, hfresh]
  have hfind := findLink_append_fresh db.links ⟨generate_id n, v⟩ hfresh
  rw [h1]
  refine ⟨rfl, ?_⟩
  simp [redirect, hfind]

/-- Witness for C1: a concrete create-then-redirect round trip. -/
theorem create_then_redirect_roundtrip_witness :
    ((fun _ : String => some "https://example.com/") "https://example.com"
        = some "https://example.com/") ∧
    findLink (Db.mk [] []).links (generate_id 0) = none ∧
    ((create_link (fun _ => some "https://example.com/") 0 ⟨[], []⟩ .ok
        ⟨"https://example.com"⟩).1 =
      .ok ⟨generate_id 0, "https://example.com/"⟩ ∧
     (redirect (create_link (fun _ => some "https://example.com/") 0 ⟨[], []⟩
          .ok ⟨"https://example.com"⟩).2.1 .ok .ok (generate_id 0) []).1 =
      .ok { status := 307,
            headers := [("Location", "https://example.com/"),
                        ("Cache-Control", DEFAULT_CACHE_CONTROL_HEADER_VALUE)],
            body := "" }) :=
  ⟨rfl, rfl, create_then_redirect_roundtrip _ _ _ _ _ _ _ rfl rfl⟩

/-- C2: the credential gate rejects a request with no `x-api` header as
401 Unauthorized without fetching the Setting row; with the header
present and the settings fetch succeeding, it rejects as 401 when the
digest of the extracted secret differs from the stored
`encrypted_global_api_key`, and passes the original request unmodified
to the inner handler when it matches. -/
theorem auth_gate_cases (sha3Hex : String → String)
    (next : Request → HttpResponse) (settingFetch : Fault)
    (setting : Settings) (req : Request) :
    (headerGet req.headers "x-api" = none →
      (auth sha3Hex next settingFetch setting req).1 =
        .error (401, "Unauthorized") ∧
      AuthEffect.fetchSetting ∉ (auth sha3Hex next settingFetch setting req).2) ∧
    (∀ v, headerGet req.headers "x-api" = some v → settingFetch = .ok →
      (setting.encrypted_global_api_key ≠ sha3Hex ((headerToStr v).getD "") →
        (auth sha3Hex next settingFetch setting req).1 =
          .error (401, "Unauthorized")) ∧
      (setting.encrypted_global_api_key = sha3Hex ((headerToStr v).getD "") →
        (auth sha3Hex next settingFetch setting req).1 = .ok (next req))) := by
  constructor
  · intro h
    simp [auth, h]
  · intro v hv hf
    subst hf
    constructor
    · intro hne
      simp [auth, hv, hne]
    · intro heq
      simp [auth, hv, heq]

/-- Witness for C2: concrete missing-header, wrong-secret and
correct-secret runs of the gate. -/
theorem auth_gate_cases_witness :
    ((auth (fun _ => "k") (fun _ => ⟨200, [], ""⟩) .ok ⟨"DEFUALT_SETTINGS", "x"⟩
        ⟨"/create", []⟩).1 = .error (401, "Unauthorized") ∧
      AuthEffect.fetchSetting ∉
        (auth (fun _ => "k") (fun _ => ⟨200, [], ""⟩) .ok
          ⟨"DEFUALT_SETTINGS", "x"⟩ ⟨"/create", []⟩).2) ∧
    (auth (fun _ => "k") (fun _ => ⟨200, [], ""⟩) .ok ⟨"DEFUALT_SETTINGS", "x"⟩
        ⟨"/create", [("x-api", [97])]⟩).1 = .error (401, "Unauthorized") ∧
    (auth (fun _ => "k") (fun _ => ⟨200, [], ""⟩) .ok ⟨"DEFUALT_SETTINGS", "k"⟩
        ⟨"/create", [("x-api", [97])]⟩).1 = .ok (⟨200, [], ""⟩ : HttpResponse) := by
  refine ⟨(auth_gate_cases _ _ _ _ _).1 rfl, ?_, ?_⟩
  · exact ((auth_gate_cases (fun _ => "k") (fun _ => ⟨200, [], ""⟩) .ok
      ⟨"DEFUALT_SETTINGS", "x"⟩ ⟨"/create", [("x-api", [97])]⟩).2
        [97] rfl rfl).1 (by decide)
  · exact ((auth_gate_cases (fun _ => "k") (fun _ => ⟨200, [], ""⟩) .ok
      ⟨"DEFUALT_SETTINGS", "k"⟩ ⟨"/create", [("x-api", [97])]⟩).2
        [97] rfl rfl).2 rfl

/-- C3: redirecting an id with no matching row in the link table fails
with 404 Not Found, leaves the database (in particular the statistics
table) unchanged, and issues no ClickEvent insert. -/
theorem redirect_not_found (db : Db) (insertFault : Fault) (id : String)
    (headers : List (String × List Nat))
    (h : findLink db.links id = none) :
    (redirect db .ok insertFault id headers).1 = .error (404, "Not Found") ∧
    (redirect db .ok insertFault id headers).2.1 = db ∧
    ∀ l r ua, StoreOp.insertStat l r ua ∉
      (redirect db .ok insertFault id headers).2.2 := by
  simp [redirect, h]

/-- Witness for C3: a concrete redirect of a missing id. -/
theorem redirect_not_found_witness :
    findLink (Db.mk [] []).links "zzz" = none ∧
    ((redirect ⟨[], []⟩ .ok .ok "zzz" []).1 = .error (404, "Not Found") ∧
     (redirect ⟨[], []⟩ .ok .ok "zzz" []).2.1 = ⟨[], []⟩ ∧
     ∀ l r ua, StoreOp.insertStat l r ua ∉
       (redirect ⟨[], []⟩ .ok .ok "zzz" []).2.2) :=
  ⟨rfl, redirect_not_found _ _ _ _ rfl⟩

/-- C4: for an existing link id, two runs of the redirect handler that
differ only in whether the statistics insert succeeds, times out or
fails with a store error produce the same client-visible response,
namely 307 with the stored target URL as `Location` and the fixed
`Cache-Control` value. -/
theorem redirect_stats_fault_irrelevant (db : Db) (f1 f2 : Fault)
    (id : String) (headers : List (String × List Nat)) (link : Link)
    (h : findLink db.links id = some link) :
    (redirect db .ok f1 id headers).1 = (redirect db .ok f2 id headers).1 ∧
    (redirect db .ok f1 id headers).1 =
      .ok { status := 307,
            headers := [("Location", link.target_url),
                        ("Cache-Control", DEFAULT_CACHE_CONTROL_HEADER_VALUE)],
            body := "" } := by
  simp [redirect, h]

/-- Witness for C4: a concrete redirect compared under a succeeding and a
timed-out statistics insert. -/
theorem redirect_stats_fault_irrelevant_witness :
    findLink (Db.mk [⟨"a", "https://e.com/"⟩] []).links "a" =
      some ⟨"a", "https://e.com/"⟩ ∧
    ((redirect ⟨[⟨"a", "https://e.com/"⟩], []⟩ .ok .ok "a" []).1 =
        (redirect ⟨[⟨"a", "https://e.com/"⟩], []⟩ .ok .timeout "a" []).1 ∧
      (redirect ⟨[⟨"a", "https://e.com/"⟩], []⟩ .ok .ok "a" []).1 =
        .ok { status := 307,
              headers := [("Location", "https://e.com/"),
                          ("Cache-Control", DEFAULT_CACHE_CONTROL_HEADER_VALUE)],
              body := "" }) :=
  ⟨rfl, redirect_stats_fault_irrelevant ⟨[⟨"a", "https://e.com/"⟩], []⟩
    .ok .timeout "a" [] ⟨"a", "https://e.com/"⟩ rfl⟩

/-- C5: every successful redirect attempts exactly one ClickEvent insert,
whose `link_id` equals the requested id, and whose referer and
user-agent fields are null exactly when the corresponding request header
is absent. -/
theorem redirect_success_one_click (db : Db) (sf inf : Fault) (id : String)
    (headers : List (String × List Nat)) (resp : HttpResponse)
    (h : (redirect db sf inf id headers).1 = .ok resp) :
    ∃ r ua,
      (redirect db sf inf id headers).2.2.filter isInsertStat =
        [.insertStat id r ua] ∧
      (r = none ↔ headerGet headers "referer" = none) ∧
      (ua = none ↔ headerGet headers "user-agent" = none) := by
  cases sf with
  | timeout => simp [redirect] at h
  | storeError e => simp [redirect] at h
  | ok =>
    rcases hf : findLink db.links id with _ | link
    · simp [redirect, hf] at h
    · refine ⟨(headerGet headers "referer").map (fun v => (headerToStr v).getD ""),
        (headerGet headers "user-agent").map (fun v => (headerToStr v).getD ""),
        ?_, ?_, ?_⟩
      · simp [redirect, hf, isInsertStat]
      · simp [Option.map_eq_none']
      · simp [Option.map_eq_none']

/-- Witness for C5: a concrete successful redirect with a referer header
and no user-agent header. -/
theorem redirect_success_one_click_witness :
    (redirect ⟨[⟨"a", "https://e.com/"⟩], []⟩ .ok .ok "a"
        [("referer", [104])]).1 =
      .ok { status := 307,
            headers := [("Location", "https://e.com/"),
                        ("Cache-Control", DEFAULT_CACHE_CONTROL_HEADER_VALUE)],
            body := "" } ∧
    (∃ r ua,
      (redirect ⟨[⟨"a", "https://e.com/"⟩], []⟩ .ok .ok "a"
          [("referer", [104])]).2.2.filter isInsertStat =
        [.insertStat "a" r ua] ∧
      (r = none ↔ headerGet [("referer", [104])] "referer" = none) ∧
      (ua = none ↔ headerGet [("referer", [104])] "user-agent" = none)) :=
  ⟨rfl, redirect_success_one_click _ _ _ _ _ _ rfl⟩

/-- C6: for every URL string the parser rejects, both the create handler
and the update handler fail with 409 "Url Malformed", leave the database
unchanged, and issue no store operation. -/
theorem malformed_url_conflict (parse : String → Option String) (u : String)
    (n : Nat) (db : Db) (f g : Fault) (id : String)
    (h : parse u = none) :
    create_link parse n db f ⟨u⟩ = (.error (409, "Url Malformed"), db, []) ∧
    update_link parse db g id ⟨u⟩ = (.error (409, "Url Malformed"), db, []) := by
  simp [create_link, update_link, h]

/-- Witness for C6: a concrete malformed submission to create and update. -/
theorem malformed_url_conflict_witness :
    ((fun _ : String => (none : Option String)) "notaurl" = none) ∧
    (create_link (fun _ => none) 0 ⟨[], []⟩ .ok ⟨"notaurl"⟩ =
        (.error (409, "Url Malformed"), ⟨[], []⟩, []) ∧
      update_link (fun _ => none) ⟨[], []⟩ .ok "a" ⟨"notaurl"⟩ =
        (.error (409, "Url Malformed"), ⟨[], []⟩, [])) :=
  ⟨rfl, malformed_url_conflict _ _ 0 _ .ok .ok "a" rfl⟩

/-- C7: updating an id with no matching row (with a well-formed URL body)
fails with 500 Internal Error carrying the "no rows returned" message of
`fetch_one`, not with 404 Not Found. -/
theorem update_missing_id_internal_error (parse : String → Option String)
    (db : Db) (id u v : String)
    (hu : parse u = some v) (h : findLink db.links id = none) :
    (update_link parse db .ok id ⟨u⟩).1 = .error (500, rowNotFoundMsg) := by
  simp [update_link, hu, h, internal_error]

/-- Witness for C7: a concrete update of a missing id. -/
theorem update_missing_id_internal_error_witness :
    ((fun _ : String => some "https://e.com/") "https://e.com" =
        some "https://e.com/") ∧
    findLink (Db.mk [] []).links "zzz" = none ∧
    (update_link (fun _ => some "https://e.com/") ⟨[], []⟩ .ok "zzz"
        ⟨"https://e.com"⟩).1 = .error (500, rowNotFoundMsg) :=
  ⟨rfl, rfl, update_missing_id_internal_error _ _ _ _ _ rfl rfl⟩

/-- C8 counterexample: the generator draws from
`gen_range(0..u32::MAX)`, a half-open range, so the value
`u32::MAX = 4294967295` — a member of the full 32-bit range — is never
drawn: the claim that every value of the full 32-bit range is equally
likely is false. -/
theorem genRange_excludes_u32_max :
    4294967295 < 2 ^ 32 ∧ ¬ genRange 4294967295 := by
  constructor
  · norm_num
  · intro hc
    exact absurd hc.2 (by norm_num)

/-- C8 (amended): the identifier generator draws one uniformly random
integer from the half-open range `0 ≤ n < u32::MAX` (every value except
`u32::MAX` equally likely), renders it as base-10 decimal text, and
encodes that text with URL-safe base64 without padding; every character
of a generated id lies in the URL-safe alphabet, so no id contains
`+`, `/` or `=`. -/
theorem generate_id_url_safe (n : Nat) (h : genRange n) :
    ∀ c ∈ (generate_id n).data,
      c ∈ b64UrlAlphabet ∧ c ≠ '+' ∧ c ≠ '/' ∧ c ≠ '=' := by
  intro c hc
  have hmem : c ∈ b64UrlAlphabet :=
    base64UrlNoPadEncode_mem ((Nat.repr n).data.map Char.toNat) c
      (by simpa [generate_id] using hc)
  refine ⟨hmem, ?_, ?_, ?_⟩ <;> rintro rfl <;> revert hmem <;> decide

/-- Witness for C8 (amended): the id generated from the draw 12345. -/
theorem generate_id_url_safe_witness :
    genRange 12345 ∧
      ∀ c ∈ (generate_id 12345).data,
        c ∈ b64UrlAlphabet ∧ c ≠ '+' ∧ c ≠ '/' ∧ c ≠ '=' :=
  ⟨by decide, generate_id_url_safe 12345 (by decide)⟩

/-- C9 counterexample: on an unauthorized call to `/create` the gate
increments the counter with label value `"/create!"` — the target URI
followed by an exclamation mark (`format!("\x7b\x7d!", req.uri())`) —
which differs from the target URI `"/create"` itself. -/
theorem auth_counter_label_has_bang :
    (auth (fun _ => "k") (fun _ => ⟨200, [], ""⟩) .ok ⟨"DEFUALT_SETTINGS", "k"⟩
        ⟨"/create", []⟩).2 =
      [.counterIncr ("uri", "/create!")] ∧
    ("/create!" : String) ≠ "/create" := by
  constructor
  · rfl
  · decide

/-- C9 (amended): whenever the credential gate rejects a request as 401
Unauthorized (missing header or digest mismatch), it increments the
"unauthorized calls" counter exactly once, with a label whose value is
the request's target URI followed by an exclamation mark. -/
theorem auth_unauthorized_counter (sha3Hex : String → String)
    (next : Request → HttpResponse) (settingFetch : Fault)
    (setting : Settings) (req : Request)
    (h : (auth sha3Hex next settingFetch setting req).1 =
      .error (401, "Unauthorized")) :
    (auth sha3Hex next settingFetch setting req).2.filter isCounterIncr =
      [.counterIncr ("uri", req.uri ++ "!")] := by
  rcases hg : headerGet req.headers "x-api" with _ | v
  · simp [auth, hg, isCounterIncr]
  · cases settingFetch with
    | timeout => simp [auth, hg, internal_error, elapsedMsg] at h
    | storeError e => simp [auth, hg, internal_error] at h
    | ok =>
      by_cases heq : setting.encrypted_global_api_key =
          sha3Hex ((headerToStr v).getD "")
      · simp [auth, hg, heq] at h
      · simp [auth, hg, heq, isCounterIncr]

/-- Witness for C9 (amended): a concrete unauthorized call. -/
theorem auth_unauthorized_counter_witness :
    (auth (fun _ => "k") (fun _ => ⟨200, [], ""⟩) .ok ⟨"DEFUALT_SETTINGS", "k"⟩
        ⟨"/stats", []⟩).1 = .error (401, "Unauthorized") ∧
    (auth (fun _ => "k") (fun _ => ⟨200, [], ""⟩) .ok ⟨"DEFUALT_SETTINGS", "k"⟩
        ⟨"/stats", []⟩).2.filter isCounterIncr =
      [.counterIncr ("uri", "/stats" ++ "!")] :=
  ⟨rfl, auth_unauthorized_counter _ _ _ _ _ rfl⟩

/-- C10: a request whose `x-api` header is present but not convertible to
a string is not rejected at extraction: the secret becomes the empty
string (`unwrap_or_default`), so — with the settings fetch succeeding —
the request passes the gate exactly when the stored
`encrypted_global_api_key` equals the digest of the empty string. -/
theorem auth_invalid_header_value_empty_secret (sha3Hex : String → String)
    (next : Request → HttpResponse) (setting : Settings) (req : Request)
    (v : List Nat)
    (hv : headerGet req.headers "x-api" = some v)
    (hbad : headerToStr v = none) :
    ((auth sha3Hex next .ok setting req).1 = .ok (next req) ↔
      setting.encrypted_global_api_key = sha3Hex "") := by
  by_cases heq : setting.encrypted_global_api_key = sha3Hex ""
  · simp [auth, hv, hbad, heq]
  · simp [auth, hv, hbad, heq]

/-- Witness for C10: a header value with the byte 200 (not valid UTF-8,
not visible ASCII) against a stored key equal to the digest of the empty
string. -/
theorem auth_invalid_header_value_witness :
    headerGet [("x-api", [200])] "x-api" = some [200] ∧
    headerToStr [200] = none ∧
    ((auth (fun _ => "k") (fun _ => ⟨204, [], "ok"⟩) .ok
        ⟨"DEFUALT_SETTINGS", "k"⟩ ⟨"/create", [("x-api", [200])]⟩).1 =
      .ok ⟨204, [], "ok"⟩ ↔ ("k" : String) = "k") := by
  refine ⟨rfl, rfl, ?_⟩
  exact auth_invalid_header_value_empty_secret (fun _ => "k")
    (fun _ => ⟨204, [], "ok"⟩) ⟨"DEFUALT_SETTINGS", "k"⟩
    ⟨"/create", [("x-api", [200])]⟩ [200] rfl rfl

end LinkShortener
